import Mathlib

/-!
Verification development for the real-estate search agent
(`src/agents/search_agent.py`).  The Python code is shallowly embedded:
pure functions become Lean functions over `String`/`List Char`, Python
floats are modelled as exact rationals (`PyNum`), Python `None` as `Option`,
and code that can raise returns `Option`.  Python truthiness of strings
and numbers is modelled explicitly.  Regular-expression searches from the
source are modelled as left-to-right scanners with the same
leftmost-match, greedy semantics on the character classes the patterns
use (ASCII digits, whitespace, literal alternatives).
-/

/-- Python `str.lower()` restricted to the characters that occur in this
code base: ASCII letters plus the Vietnamese uppercase letters used in
the source's dictionaries and in the inputs of the theorems below. -/
def lowerChar (c : Char) : Char :=
  if 65 ≤ c.toNat ∧ c.toNat ≤ 90 then Char.ofNat (c.toNat + 32)
  else match c with
  | 'Đ' => 'đ' | 'Ư' => 'ư' | 'Ứ' => 'ứ' | 'Ừ' => 'ừ' | 'Ữ' => 'ữ' | 'Ử' => 'ử' | 'Ự' => 'ự'
  | 'À' => 'à' | 'Á' => 'á' | 'Ả' => 'ả' | 'Ã' => 'ã' | 'Ạ' => 'ạ'
  | 'Ă' => 'ă' | 'Ằ' => 'ằ' | 'Ắ' => 'ắ' | 'Ẳ' => 'ẳ' | 'Ẵ' => 'ẵ' | 'Ặ' => 'ặ'
  | 'Â' => 'â' | 'Ầ' => 'ầ' | 'Ấ' => 'ấ' | 'Ẩ' => 'ẩ' | 'Ẫ' => 'ẫ' | 'Ậ' => 'ậ'
  | 'È' => 'è' | 'É' => 'é' | 'Ẻ' => 'ẻ' | 'Ẽ' => 'ẽ' | 'Ẹ' => 'ẹ'
  | 'Ê' => 'ê' | 'Ề' => 'ề' | 'Ế' => 'ế' | 'Ể' => 'ể' | 'Ễ' => 'ễ' | 'Ệ' => 'ệ'
  | 'Ì' => 'ì' | 'Í' => 'í' | 'Ỉ' => 'ỉ' | 'Ĩ' => 'ĩ' | 'Ị' => 'ị'
  | 'Ò' => 'ò' | 'Ó' => 'ó' | 'Ỏ' => 'ỏ' | 'Õ' => 'õ' | 'Ọ' => 'ọ'
  | 'Ô' => 'ô' | 'Ồ' => 'ồ' | 'Ố' => 'ố' | 'Ổ' => 'ổ' | 'Ỗ' => 'ỗ' | 'Ộ' => 'ộ'
  | 'Ơ' => 'ơ' | 'Ờ' => 'ờ' | 'Ớ' => 'ớ' | 'Ở' => 'ở' | 'Ỡ' => 'ỡ' | 'Ợ' => 'ợ'
  | 'Ù' => 'ù' | 'Ú' => 'ú' | 'Ủ' => 'ủ' | 'Ũ' => 'ũ' | 'Ụ' => 'ụ'
  | 'Ỳ' => 'ỳ' | 'Ý' => 'ý' | 'Ỷ' => 'ỷ' | 'Ỹ' => 'ỹ' | 'Ỵ' => 'ỵ'
  | _ => c

/-- Python `str.lower()`. -/
def pyLower (s : String) : String := ⟨s.data.map lowerChar⟩

/-- Python `str.strip()`: drop whitespace from both ends. -/
def pyTrim (s : String) : String :=
  ⟨((s.data.dropWhile Char.isWhitespace).reverse.dropWhile Char.isWhitespace).reverse⟩

/-- Python substring containment on character lists (`pat in hay`). -/
def inSubL (pat hay : List Char) : Bool :=
  match hay with
  | [] => pat.isEmpty
  | _ :: t => pat.isPrefixOf hay || inSubL pat t

/-- Python `pat in hay` for strings. -/
def pyIn (pat hay : String) : Bool := inSubL pat.data hay.data

/-- Fuel-driven worker for `str.replace`: replaces occurrences of `pat`
left to right, non-overlapping (Python semantics).  The fuel is always
instantiated with more than the length of the list, so the zero-fuel
branch is unreachable. -/
def replGo : Nat → List Char → List Char → List Char → List Char
  | 0, _, _, cs => cs
  | _ + 1, _, _, [] => []
  | n + 1, pat, rep, c :: cs =>
    if !pat.isEmpty && pat.isPrefixOf (c :: cs) then
      rep ++ replGo n pat rep ((c :: cs).drop pat.length)
    else
      c :: replGo n pat rep cs

/-- Python `s.replace(pat, rep)` (all occurrences; for the non-empty
patterns used in the source). -/
def pyReplace (s pat rep : String) : String :=
  ⟨replGo (s.data.length + 1) pat.data rep.data s.data⟩

/-- Python `str.split(sep)` for a single-character separator. -/
def splitChar (sep : Char) : List Char → List (List Char)
  | [] => [[]]
  | c :: rest =>
    let r := splitChar sep rest
    if c = sep then [] :: r
    else
      match r with
      | h :: t => (c :: h) :: t
      | [] => [[c]]

/-- Numeric value of a list of ASCII digits (Python `int` on the digits). -/
def natOfDigits (ds : List Char) : Nat :=
  ds.foldl (fun n c => 10 * n + (c.toNat - 48)) 0

/-- Exact rational numbers modelling Python floats.  Mathlib's `ℚ` is
avoided only because its arithmetic is sealed against kernel reduction;
`PyNum` keeps every value in lowest terms via `PyNum.norm`, so that
derived equality is value equality and all operations evaluate. -/
structure PyNum where
  num : Int
  den : Nat
deriving DecidableEq, Repr

/-- Normalized constructor: `norm n d` is the reduced form of `n / d`
(for the positive denominators used throughout). -/
def PyNum.norm (n : Int) (d : Nat) : PyNum :=
  if d = 0 then ⟨0, 1⟩
  else
    let g := Nat.gcd n.natAbs d
    ⟨Int.tdiv n g, d / g⟩

instance (n : Nat) : OfNat PyNum n := ⟨⟨n, 1⟩⟩

/-- Multiplication of exact rationals. -/
def PyNum.mul (a b : PyNum) : PyNum := PyNum.norm (a.num * b.num) (a.den * b.den)

/-- `a < b` on exact rationals (cross multiplication; denominators are
positive for every value built by `norm`). -/
def PyNum.ltB (a b : PyNum) : Bool := decide (a.num * (b.den : Int) < b.num * (a.den : Int))

/-- `0 < a` for exact rationals. -/
def PyNum.isPos (a : PyNum) : Bool := decide (0 < a.num)

/-- Python `int(x)` (truncation toward zero). -/
def PyNum.toInt (a : PyNum) : Int := Int.tdiv a.num (a.den : Int)

/-- Model of Python `float(value)` on the strings reachable inside
`_normalize_vietnamese_number` (digits and dots): `None` on the strings
`float` rejects (`""`, `"."`, more than one dot), exact value
otherwise. -/
def parseFloatNum (cs : List Char) : Option PyNum :=
  if !cs.all (fun c => c.isDigit || c = '.') then none
  else
    match splitChar '.' cs with
    | [intp] => if intp.isEmpty then none else some (PyNum.norm (natOfDigits intp) 1)
    | [intp, frac] =>
      if intp.isEmpty && frac.isEmpty then none
      else some (PyNum.norm (natOfDigits intp * 10 ^ frac.length + natOfDigits frac) (10 ^ frac.length))
    | _ => none

/-- Python truthiness of an optional string (`None` and `""` are falsy). -/
def truthyS (o : Option String) : Bool := !(o.getD "").isEmpty

/-- Python truthiness of an optional number (`None` and `0` are falsy). -/
def truthyN (o : Option PyNum) : Bool :=
  match o with
  | none => false
  | some q => decide (q.num ≠ 0)

/-- Python truthiness of an optional integer (`None` and `0` are falsy). -/
def truthyI (o : Option Int) : Bool :=
  match o with
  | none => false
  | some n => decide (n ≠ 0)

/-- Python `a or b` on optional strings: `a` when truthy, else `b`. -/
def pyOrS (a b : Option String) : Option String := if truthyS a then a else b

/-- `search_agent._normalize_vietnamese_number`, step 2: detect and strip
a magnitude suffix (`tỷ`/`ty` → 1e9, `triệu`/`tr` → 1e6), exactly as the
source's substring tests and `replace` calls do. -/
def stripMagnitude (v : String) : PyNum × String :=
  if pyIn "tỷ" v || pyIn "ty" v then
    (1000000000, pyTrim (pyReplace (pyReplace v "tỷ" "") "ty" ""))
  else if pyIn "triệu" v || pyIn "tr" v then
    (1000000, pyTrim (pyReplace (pyReplace v "triệu" "") "tr" ""))
  else (1, v)

/-- `re.sub(r'[^0-9,.]', '', value)`: keep only ASCII digits, comma, dot. -/
def keepNumChars (v : String) : String :=
  ⟨v.data.filter (fun c => c.isDigit || c = ',' || c = '.')⟩

/-- The comma/dot disambiguation block of
`_normalize_vietnamese_number`: both present → European convention;
only comma → decimal when the split has exactly two parts and the second
has length ≤ 2, thousands separator otherwise. -/
def resolveSeparators (v : String) : String :=
  if pyIn "," v && pyIn "." v then
    pyReplace (pyReplace v "." "") "," "."
  else if pyIn "," v then
    match splitChar ',' v.data with
    | [_, b] => if b.length ≤ 2 then pyReplace v "," "." else pyReplace v "," ""
    | _ => pyReplace v "," ""
  else v

/-- Final guard of `_normalize_vietnamese_number`:
`return result if result > 0 else None`. -/
def posGuard (q : PyNum) : Option PyNum := if q.isPos then some q else none

/-- `RealEstateSearchAgent._normalize_vietnamese_number`.  Python floats
are modelled as exact rationals; the `except` clause corresponds to the
`none` of `parseFloatNum`. -/
def normalize_vietnamese_number (s : String) : Option PyNum :=
  if s.isEmpty then none
  else
    let v0 := pyLower (pyTrim s)
    let mv := stripMagnitude v0
    let v2 := keepNumChars mv.2
    let v3 := resolveSeparators v2
    match parseFloatNum v3.data with
    | none => none
    | some r => posGuard (r.mul mv.1)

/-- The negotiation keywords of `_parse_price_to_number`. -/
def negotiation_keywords : List String :=
  ["thỏa thuận", "liên hệ", "thoả thuận", "lien he"]

/-- `RealEstateSearchAgent._parse_price_to_number`: `None` for empty
text or a negotiation keyword, else `int(normalize(...))` (truncation of
a positive value = floor). -/
def parse_price_to_number (s : String) : Option Int :=
  if s.isEmpty then none
  else if negotiation_keywords.any (fun kw => pyIn kw (pyLower s)) then none
  else (normalize_vietnamese_number s).map PyNum.toInt

/-! ## The `SearchIntent` data model

Python optional fields become `Option`; the dataclass defaults
(`city = "Hà Nội"`, `intent = "mua"`, empty lists) are the record
defaults.  `from_dict` can overwrite any of them with `None` (a JSON
`null`), hence even `city` and `intent` are `Option String`. -/

structure SearchIntent where
  property_type : Option String := none
  city : Option String := some "Hà Nội"
  district : Option String := none
  ward : Option String := none
  street : Option String := none
  price_min : Option PyNum := none
  price_max : Option PyNum := none
  price_text : Option String := none
  area_min : Option PyNum := none
  area_max : Option PyNum := none
  bedrooms : Option Int := none
  bathrooms : Option Int := none
  features : Option (List String) := some []
  keywords : Option (List String) := some []
  requirements : Option (List String) := some []
  intent : Option String := some "mua"
deriving DecidableEq, Repr

/-- A JSON dictionary field as `dict.get` sees it: the key can be
absent, present with value `null` (Python `None`; for the nested
dictionaries this also covers a non-dict value, which raises the same
way `None` does), or present with a value of the expected type. -/
inductive JF (α : Type) where
  | absent
  | null
  | val (a : α)
deriving DecidableEq, Repr

/-- `dict.get(key)` (no default). -/
def JF.opt {α : Type} : JF α → Option α
  | .absent => none
  | .null => none
  | .val a => some a

/-- `dict.get(key, default)`. -/
def JF.getD {α : Type} (j : JF α) (dflt : α) : Option α :=
  match j with
  | .absent => some dflt
  | .null => none
  | .val a => some a

/-- The nested `location` object of the parsed LLM JSON. -/
structure LocPD where
  city : JF String := .absent
  district : JF String := .absent
  ward : JF String := .absent
  street : JF String := .absent
deriving DecidableEq, Repr

/-- The nested `price` object of the parsed LLM JSON. -/
structure PricePD where
  min : JF PyNum := .absent
  max : JF PyNum := .absent
  text : JF String := .absent
deriving DecidableEq, Repr

/-- The nested `area` object of the parsed LLM JSON. -/
structure AreaPD where
  min : JF PyNum := .absent
  max : JF PyNum := .absent
deriving DecidableEq, Repr

/-- A parsed LLM response dictionary, as read by
`SearchIntent.from_dict` (`_safe_parse_json`'s successful result). -/
structure PD where
  property_type : JF String := .absent
  location : JF LocPD := .absent
  price : JF PricePD := .absent
  area : JF AreaPD := .absent
  bedrooms : JF Int := .absent
  bathrooms : JF Int := .absent
  features : JF (List String) := .absent
  keywords : JF (List String) := .absent
  requirements : JF (List String) := .absent
  intent : JF String := .absent
deriving DecidableEq, Repr

/-- The city sanitization of `from_dict`: when the value is truthy and
contains a pipe, keep the part before the first pipe, stripped. -/
def sanitizeCity (raw : Option String) : Option String :=
  match raw with
  | none => none
  | some s => if pyIn "|" s then some (pyTrim ⟨s.data.takeWhile (fun c => c ≠ '|')⟩) else some s

/-- `SearchIntent.from_dict`.  `none` models the `AttributeError` raised
when `location`, `price` or `area` is present but not a dictionary
(e.g. JSON `null`): `None.get(...)` raises in Python. -/
def SearchIntent.from_dict (d : PD) : Option SearchIntent :=
  let loc? : Option LocPD := match d.location with
    | .absent => some {}
    | .null => none
    | .val l => some l
  let price? : Option PricePD := match d.price with
    | .absent => some {}
    | .null => none
    | .val p => some p
  let area? : Option AreaPD := match d.area with
    | .absent => some {}
    | .null => none
    | .val a => some a
  match loc?, price?, area? with
  | some loc, some price, some area =>
    some {
      property_type := d.property_type.opt
      city := sanitizeCity (loc.city.getD "Hà Nội")
      district := loc.district.opt
      ward := loc.ward.opt
      street := loc.street.opt
      price_min := price.min.opt
      price_max := price.max.opt
      price_text := price.text.opt
      area_min := area.min.opt
      area_max := area.max.opt
      bedrooms := d.bedrooms.opt
      bathrooms := d.bathrooms.opt
      features := d.features.getD []
      keywords := d.keywords.getD []
      requirements := d.requirements.getD []
      intent := d.intent.getD "mua"
    }
  | _, _, _ => none

/-! ## `_fallback_parse_query` -/

/-- The `ptype_map` dictionary of `_fallback_parse_query`, in insertion
order. -/
def ptypePairs : List (String × String) :=
  [("chung cu", "chung cư"), ("chung cư", "chung cư"), ("can ho", "chung cư"), ("căn hộ", "chung cư"),
   ("nha rieng", "nhà riêng"), ("nhà riêng", "nhà riêng"), ("nha dat", "nhà riêng"),
   ("biet thu", "biệt thự"), ("biệt thự", "biệt thự"), ("villa", "biệt thự"),
   ("dat nen", "đất nền"), ("đất nền", "đất nền"), ("dat tho cu", "đất nền"),
   ("nha mat pho", "nhà mặt phố"), ("nhà mặt phố", "nhà mặt phố"), ("shophouse", "nhà mặt phố")]

/-- Python `sorted(keys, key=len, reverse=True)` restricted to the keys
of an association list: stable descending sort by key length, realized
as bucketing by each possible length (the keys used are all shorter
than 64 characters). -/
def sortByKeyLenDesc (l : List (String × String)) : List (String × String) :=
  ((List.range 64).reverse.map (fun n => l.filter (fun kv => kv.1.length = n))).flatten

/-- The `landmark_map` dictionary, in insertion order (looked up in that
order, not sorted). -/
def landmarkPairs : List (String × String) :=
  [("hồ tây", "Tây Hồ"), ("ho tay", "Tây Hồ"), ("phố cổ", "Hoàn Kiếm"), ("hồ gươm", "Hoàn Kiếm"),
   ("bờ hồ", "Hoàn Kiếm"), ("royal city", "Thanh Xuân"), ("times city", "Hai Bà Trưng"),
   ("ecopark", "Văn Giang"), ("ocean park", "Gia Lâm"), ("smart city", "Nam Từ Liêm")]

/-- The `district_map` dictionary of `_fallback_parse_query`, in
insertion order (the source repeats the key `"thanh oai"`; a Python dict
keeps one entry). -/
def districtPairs : List (String × String) :=
  [("ba dinh", "Ba Đình"), ("ba đình", "Ba Đình"),
   ("hoan kiem", "Hoàn Kiếm"), ("hoàn kiếm", "Hoàn Kiếm"),
   ("tay ho", "Tây Hồ"), ("tây hồ", "Tây Hồ"),
   ("cau giay", "Cầu Giấy"), ("cầu giấy", "Cầu Giấy"),
   ("dong da", "Đống Đa"), ("đống đa", "Đống Đa"),
   ("hai ba trung", "Hai Bà Trưng"), ("hai bà trưng", "Hai Bà Trưng"),
   ("hoang mai", "Hoàng Mai"), ("hoàng mai", "Hoàng Mai"),
   ("thanh xuan", "Thanh Xuân"), ("thanh xuân", "Thanh Xuân"),
   ("long bien", "Long Biên"), ("long biên", "Long Biên"),
   ("nam tu liem", "Nam Từ Liêm"), ("nam từ liêm", "Nam Từ Liêm"),
   ("bac tu liem", "Bắc Từ Liêm"), ("bắc từ liêm", "Bắc Từ Liêm"),
   ("ha dong", "Hà Đông"), ("hà đông", "Hà Đông"),
   ("son tay", "Sơn Tây"), ("sơn tây", "Sơn Tây"),
   ("phuc tho", "Phúc Thọ"), ("phúc thọ", "Phúc Thọ"),
   ("dong anh", "Đông Anh"), ("đông anh", "Đông Anh"),
   ("gia lam", "Gia Lâm"), ("gia lâm", "Gia Lâm"),
   ("soc son", "Sóc Sơn"), ("sóc sơn", "Sóc Sơn"),
   ("thanh tri", "Thanh Trì"), ("thanh trì", "Thanh Trì"),
   ("hoai duc", "Hoài Đức"), ("hoài đức", "Hoài Đức"),
   ("thach that", "Thạch Thất"), ("thạch thất", "Thạch Thất"),
   ("quoc oai", "Quốc Oai"), ("quốc oai", "Quốc Oai"),
   ("thanh oai", "Thanh Oai"),
   ("thuong tin", "Thường Tín"), ("thường tín", "Thường Tín"),
   ("me linh", "Mê Linh"), ("mê linh", "Mê Linh"),
   ("chuong my", "Chương Mỹ"), ("chương mỹ", "Chương Mỹ"),
   ("ba vi", "Ba Vì"), ("ba vì", "Ba Vì"),
   ("dan phuong", "Đan Phượng"), ("đan phượng", "Đan Phượng"),
   ("ung hoa", "Ứng Hòa"), ("ứng hòa", "Ứng Hòa"),
   ("my duc", "Mỹ Đức"), ("mỹ đức", "Mỹ Đức"),
   ("phu xuyen", "Phú Xuyên"), ("phú xuyên", "Phú Xuyên")]

/-- Head match for `(\d+)\s*(pn|phòng ngủ|phong ngu|pn)` at the current
position: a maximal ASCII digit run, maximal whitespace, then one of the
literal alternatives (only the captured digits matter). -/
def headMatchBedroom (cs : List Char) : Option Nat :=
  let ds := cs.takeWhile Char.isDigit
  if ds.isEmpty then none
  else
    let r := (cs.dropWhile Char.isDigit).dropWhile Char.isWhitespace
    if "pn".data.isPrefixOf r || "phòng ngủ".data.isPrefixOf r || "phong ngu".data.isPrefixOf r then
      some (natOfDigits ds)
    else none

/-- `re.search` for the bedroom pattern: leftmost start position wins. -/
def bedroomScan : List Char → Option Nat
  | [] => none
  | c :: rest =>
    match headMatchBedroom (c :: rest) with
    | some n => some n
    | none => bedroomScan rest

/-- Greedy match of `\d+(?:\.\d+)?` at the current position, returning
the captured characters and the rest (dot-decimal variant used by the
price patterns of `_fallback_parse_query`). -/
def scanNumDot (cs : List Char) : Option (List Char × List Char) :=
  let ds := cs.takeWhile Char.isDigit
  if ds.isEmpty then none
  else
    match cs.dropWhile Char.isDigit with
    | '.' :: r2 =>
      let fs := r2.takeWhile Char.isDigit
      if fs.isEmpty then some (ds, '.' :: r2)
      else some (ds ++ '.' :: fs, r2.dropWhile Char.isDigit)
    | r1 => some (ds, r1)

/-- Head match for `(\d+(?:\.\d+)?)\s*-\s*(\d+(?:\.\d+)?)\s*tỷ`. -/
def headMatchRange (cs : List Char) : Option (List Char × List Char) :=
  match scanNumDot cs with
  | none => none
  | some (g1, r1) =>
    match r1.dropWhile Char.isWhitespace with
    | '-' :: r2 =>
      match scanNumDot (r2.dropWhile Char.isWhitespace) with
      | none => none
      | some (g2, r3) =>
        if "tỷ".data.isPrefixOf (r3.dropWhile Char.isWhitespace) then some (g1, g2) else none
    | _ => none

/-- `re.search` for the `X-Y tỷ` price-range pattern. -/
def rangeScan : List Char → Option (List Char × List Char)
  | [] => none
  | c :: rest =>
    match headMatchRange (c :: rest) with
    | some g => some g
    | none => rangeScan rest

/-- Head match for `dưới\s*(\d+(?:\.\d+)?)\s*tỷ`. -/
def headMatchUnder (cs : List Char) : Option (List Char) :=
  if "dưới".data.isPrefixOf cs then
    match scanNumDot ((cs.drop "dưới".data.length).dropWhile Char.isWhitespace) with
    | none => none
    | some (g, r1) =>
      if "tỷ".data.isPrefixOf (r1.dropWhile Char.isWhitespace) then some g else none
  else none

/-- `re.search` for the `dưới X tỷ` pattern. -/
def underScan : List Char → Option (List Char)
  | [] => none
  | c :: rest =>
    match headMatchUnder (c :: rest) with
    | some g => some g
    | none => underScan rest

/-- `float(g)` on a captured number group (always parses: the group is
digits with an optional dot-fraction). -/
def groupFloat (g : List Char) : PyNum := (parseFloatNum g).getD 0

/-- `int(float(g) * 1_000_000_000)`. -/
def billionsOf (g : List Char) : Int := ((groupFloat g).mul 1000000000).toInt

/-- `RealEstateSearchAgent._fallback_parse_query`: regex/keyword parsing
of the lowercased query.  Note the source unconditionally forces
`intent.city = "Hà Nội"` (alternate-city keywords only trigger a log
line). -/
def fallback_parse_query (q : String) : SearchIntent :=
  let ql := pyLower q
  let pt := ((sortByKeyLenDesc ptypePairs).find? (fun kv => pyIn kv.1 ql)).map (·.2)
  let dLandmark := (landmarkPairs.find? (fun kv => pyIn kv.1 ql)).map (·.2)
  let dist := match dLandmark with
    | some d => some d
    | none => ((sortByKeyLenDesc districtPairs).find? (fun kv => pyIn kv.1 ql)).map (·.2)
  let beds := (bedroomScan ql.data).map (fun n => (n : Int))
  let priceTriple : Option PyNum × Option PyNum × Option String :=
    match rangeScan ql.data with
    | some (g1, g2) =>
      (some ⟨billionsOf g1, 1⟩, some ⟨billionsOf g2, 1⟩,
       some (⟨g1⟩ ++ "-" ++ ⟨g2⟩ ++ " tỷ"))
    | none =>
      match underScan ql.data with
      | some g => (none, some ⟨billionsOf g, 1⟩, some ("dưới " ++ ⟨g⟩ ++ " tỷ"))
      | none => (none, none, none)
  { property_type := pt
    city := some "Hà Nội"
    district := dist
    price_min := priceTriple.1
    price_max := priceTriple.2.1
    price_text := priceTriple.2.2
    bedrooms := beds
    intent := if pyIn "thuê" ql || pyIn "cho thuê" ql then some "thuê" else some "mua"
    keywords := some [q] }

/-! ## `parse_query`

The language-model interaction of `parse_query` is abstracted at the
boundary the code itself uses: the call either raises (any exception,
caught by the `except` block) or yields text whose `_safe_parse_json`
result is an optional dictionary.  The model covers the default
configuration in which the primary LLM is not the Gemini wrapper, so the
`except` path falls directly through to `_fallback_parse_query`. -/

inductive LLMResponse where
  | raised
  | returned (parsed : Option PD)

/-- `RealEstateSearchAgent.parse_query`: strict-parse the response, map
it through `from_dict`, apply the emptiness validation gate (district
and both price bounds falsy → fall back) and the district backfill, and
otherwise fall back to regex parsing.  Total by construction — every
exception path of the source lands in `fallback_parse_query`. -/
def parse_query (q : String) (r : LLMResponse) : SearchIntent :=
  match r with
  | .raised => fallback_parse_query q
  | .returned none => fallback_parse_query q
  | .returned (some pd) =>
    match SearchIntent.from_dict pd with
    | none => fallback_parse_query q
    | some it =>
      if !truthyS it.district && !truthyN it.price_max && !truthyN it.price_min then
        fallback_parse_query q
      else if !truthyS it.district then
        let fb := fallback_parse_query q
        if truthyS fb.district then { it with district := fb.district } else it
      else it

/-! ## The `Listing` data model and `_filter_listings_by_intent`

A listing dictionary as built by the direct scrapers: flat fields plus
the nested `location` dict.  Absent keys and `None` values are both
`none` (the filter reads them with falsy defaults, so the two are
indistinguishable there). -/

structure Listing where
  title : Option String := none
  price_text : Option String := none
  price_number : Option PyNum := none
  area_m2 : Option PyNum := none
  bedrooms : Option Int := none
  loc_address : Option String := none
  loc_district : Option String := none
  loc_city : Option String := none
  contact_phone : Option String := none
  url : Option String := none
  source_url : Option String := none
  source_platform : Option String := none
deriving DecidableEq, Repr

/-- Rejection: price present and above `price_max * 1.1` (both truthy). -/
def rejectPriceMax (i : SearchIntent) (l : Listing) : Bool :=
  match l.price_number, i.price_max with
  | some p, some m => decide (p.num ≠ 0) && decide (m.num ≠ 0) && PyNum.ltB (m.mul ⟨11, 10⟩) p
  | _, _ => false

/-- Rejection: price present and below `price_min * 0.9` (both truthy). -/
def rejectPriceMin (i : SearchIntent) (l : Listing) : Bool :=
  match l.price_number, i.price_min with
  | some p, some m => decide (p.num ≠ 0) && decide (m.num ≠ 0) && PyNum.ltB p (m.mul ⟨9, 10⟩)
  | _, _ => false

/-- The Hanoi alias set of the city check. -/
def hnVariants : List String := ["hà nội", "ha noi", "hn"]

/-- The Ho-Chi-Minh-City alias set of the city check. -/
def hcmVariants : List String := ["hồ chí minh", "ho chi minh", "hcm", "sài gòn", "sai gon", "tp.hcm"]

/-- Rejection: both cities truthy, not equal case-insensitively, and the
two sides fall into opposite alias sets. -/
def rejectCity (i : SearchIntent) (l : Listing) : Bool :=
  let ic := (i.city.getD "")
  let lc := (l.loc_city.getD "")
  if !ic.isEmpty && !lc.isEmpty then
    if pyLower ic == pyLower lc then false
    else
      let c1 := pyLower ic
      let c2 := pyLower lc
      ((hnVariants.any (fun v => pyIn v c1)) && (hcmVariants.any (fun v => pyIn v c2))) ||
      ((hcmVariants.any (fun v => pyIn v c1)) && (hnVariants.any (fun v => pyIn v c2)))
  else false

/-- `lower`, strip the administrative prefixes, `strip` — the district
canonicalization inside the filter. -/
def canonDistrict (s : String) : String :=
  pyTrim (pyReplace (pyReplace (pyLower s) "quận" "") "huyện" "")

/-- Rejection: both districts truthy and neither canonical form is a
substring of the other. -/
def rejectDistrictMismatch (i : SearchIntent) (l : Listing) : Bool :=
  let idist := (i.district.getD "")
  let ld := (l.loc_district.getD "")
  if !idist.isEmpty && !ld.isEmpty then
    let d1 := canonDistrict idist
    let d2 := canonDistrict ld
    !(pyIn d1 d2) && !(pyIn d2 d1)
  else false

/-- Rejection: the intent requires a district and the listing has none
(the strict missing-data policy). -/
def rejectDistrictMissing (i : SearchIntent) (l : Listing) : Bool :=
  truthyS i.district && (l.loc_district.getD "").isEmpty

/-- Rejection: the intent requires a bedroom count and the listing's is
missing or different. -/
def rejectBedrooms (i : SearchIntent) (l : Listing) : Bool :=
  match i.bedrooms with
  | none => false
  | some n =>
    if n = 0 then false
    else
      match l.bedrooms with
      | none => true
      | some m => decide (m ≠ n)

/-- The apartment keywords accepted for a `chung cư`/`căn hộ` intent. -/
def apartmentKeywords : List String := ["chung cư", "căn hộ", "tập thể", "apartment", "condo"]

/-- The land keywords accepted for a `đất` intent. -/
def landKeywords : List String := ["đất", "thổ cư", "lô"]

/-- Rejection: property-type keyword mismatch for apartment/land intents. -/
def rejectPropertyType (i : SearchIntent) (l : Listing) : Bool :=
  let pto := (i.property_type.getD "")
  if pto.isEmpty then false
  else
    let pt := pyLower pto
    let title := pyLower (l.title.getD "")
    if pyIn "chung cư" pt || pyIn "căn hộ" pt then
      !(apartmentKeywords.any (fun k => pyIn k title))
    else if pyIn "đất" pt then
      !(landKeywords.any (fun k => pyIn k title))
    else false

/-- A listing survives the filter iff no rejection rule fires (the
source's sequence of `continue` guards). -/
def keepListing (i : SearchIntent) (l : Listing) : Bool :=
  !rejectPriceMax i l && !rejectPriceMin i l && !rejectCity i l &&
  !rejectDistrictMismatch i l && !rejectDistrictMissing i l &&
  !rejectBedrooms i l && !rejectPropertyType i l

/-- `RealEstateSearchAgent._filter_listings_by_intent`. -/
def filter_listings_by_intent (listings : List Listing) (i : SearchIntent) : List Listing :=
  listings.filter (keepListing i)

/-! ## `_deduplicate_listings` -/

/-- The deduplication URL key: `listing.get('url') or
listing.get('source_url', '')`, turned into `None` when falsy. -/
def urlKey (l : Listing) : Option String :=
  let u := match l.url with
    | some s => if s.isEmpty then l.source_url.getD "" else s
    | none => l.source_url.getD ""
  if u.isEmpty then none else some u

/-- The deduplication title key:
`listing.get('title', '').lower().strip()[:50]`, turned into `None` when
falsy. -/
def titleKey (l : Listing) : Option String :=
  let t : String := ⟨((pyTrim (pyLower (l.title.getD ""))).data.take 50)⟩
  if t.isEmpty then none else some t

/-- Membership of an optional key in a seen-set. -/
def keySeen (k : Option String) (seen : List String) : Bool :=
  match k with
  | none => false
  | some s => seen.contains s

/-- Add an optional key to a seen-set. -/
def pushKey (k : Option String) (seen : List String) : List String :=
  match k with
  | none => seen
  | some s => s :: seen

/-- The loop of `_deduplicate_listings`, carrying the two seen-sets. -/
def dedupGo (seenU seenT : List String) : List Listing → List Listing
  | [] => []
  | l :: ls =>
    if keySeen (urlKey l) seenU || keySeen (titleKey l) seenT then
      dedupGo seenU seenT ls
    else
      l :: dedupGo (pushKey (urlKey l) seenU) (pushKey (titleKey l) seenT) ls

/-- `RealEstateSearchAgent._deduplicate_listings`. -/
def deduplicate_listings (listings : List Listing) : List Listing :=
  dedupGo [] [] listings

/-! ## `_scrape_chotot_direct`: URL targeting and candidate extraction

The page fetch is I/O; the extraction loop over the parsed markup is
pure.  A candidate `<li>` element is abstracted by what the loop reads
from it: its first anchor (href attribute and anchor text), when any,
and its full text content.  The district-extraction utility
`extract_district` (imported from `agents.tools`, not part of the
scraping core under verification) is an arbitrary function parameter:
the theorems below hold for every behaviour of it. -/

structure Candidate where
  href : String := ""
  anchor_text : String := ""
  has_link : Bool := false
  text : String := ""
deriving DecidableEq, Repr

/-- The `slug_map` of `_scrape_chotot_direct`, in insertion order. -/
def chototSlugPairs : List (String × String) :=
  [("ba đình", "/quan-ba-dinh"), ("hoàn kiếm", "/quan-hoan-kiem"), ("tây hồ", "/quan-tay-ho"),
   ("long biên", "/quan-long-bien"), ("cầu giấy", "/quan-cau-giay"), ("đống đa", "/quan-dong-da"),
   ("hai bà trưng", "/quan-hai-ba-trung"), ("hoàng mai", "/quan-hoang-mai"),
   ("thanh xuân", "/quan-thanh-xuan"), ("sóc sơn", "/huyen-soc-son"), ("đông anh", "/huyen-dong-anh"),
   ("gia lâm", "/huyen-gia-lam"), ("nam từ liêm", "/quan-nam-tu-liem"),
   ("thanh trì", "/huyen-thanh-tri"), ("bắc từ liêm", "/quan-bac-tu-liem"),
   ("mê linh", "/huyen-me-linh"), ("hà đông", "/quan-ha-dong"), ("sơn tây", "/thi-xa-son-tay"),
   ("ba vì", "/huyen-ba-vi"), ("phúc thọ", "/huyen-phuc-tho"), ("đan phượng", "/huyen-dan-phuong"),
   ("hoài đức", "/huyen-hoai-duc"), ("quốc oai", "/huyen-quoc-oai"),
   ("thạch thất", "/huyen-thach-that"), ("chương mỹ", "/huyen-chuong-my"),
   ("thanh oai", "/huyen-thanh-oai"), ("thường tín", "/huyen-thuong-tin"),
   ("phú xuyên", "/huyen-phu-xuyen"), ("ứng hòa", "/huyen-ung-hoa"), ("mỹ đức", "/huyen-my-duc")]

/-- The district slug of the Chợ Tốt target URL: first `slug_map` key
that is a substring of the lowercased intent district, `""` when the
intent has no truthy district or nothing matches. -/
def chototDistrictSlug (i : SearchIntent) : String :=
  if truthyS i.district then
    let dl := pyLower (i.district.getD "")
    ((chototSlugPairs.find? (fun kv => pyIn kv.1 dl)).map (·.2)).getD ""
  else ""

/-- Head match for the Chợ Tốt price pattern
`(\d+(?:[.,]\d+)?)\s*(tỷ|triệu)`, returning the whole matched text
(`group(0)`) — number, the whitespace between, and the unit. -/
def headMatchPriceVN (cs : List Char) : Option (List Char) :=
  let ds := cs.takeWhile Char.isDigit
  if ds.isEmpty then none
  else
    let afterNum : List Char × List Char :=
      match cs.dropWhile Char.isDigit with
      | c :: r2 =>
        if c = '.' || c = ',' then
          let fs := r2.takeWhile Char.isDigit
          if fs.isEmpty then (ds, c :: r2)
          else (ds ++ c :: fs, r2.dropWhile Char.isDigit)
        else (ds, c :: r2)
      | [] => (ds, [])
    let ws := afterNum.2.takeWhile Char.isWhitespace
    let r := afterNum.2.dropWhile Char.isWhitespace
    if "tỷ".data.isPrefixOf r then some (afterNum.1 ++ ws ++ "tỷ".data)
    else if "triệu".data.isPrefixOf r then some (afterNum.1 ++ ws ++ "triệu".data)
    else none

/-- `re.search` for the Chợ Tốt price pattern. -/
def priceScanVN : List Char → Option (List Char)
  | [] => none
  | c :: rest =>
    match headMatchPriceVN (c :: rest) with
    | some g => some g
    | none => priceScanVN rest

/-- Head match for the area pattern `(\d+(?:[.,]\d+)?)\s*(m²|m2)`,
returning the captured number (`group(1)`). -/
def headMatchArea (cs : List Char) : Option (List Char) :=
  let ds := cs.takeWhile Char.isDigit
  if ds.isEmpty then none
  else
    let afterNum : List Char × List Char :=
      match cs.dropWhile Char.isDigit with
      | c :: r2 =>
        if c = '.' || c = ',' then
          let fs := r2.takeWhile Char.isDigit
          if fs.isEmpty then (ds, c :: r2)
          else (ds ++ c :: fs, r2.dropWhile Char.isDigit)
        else (ds, c :: r2)
      | [] => (ds, [])
    let r := afterNum.2.dropWhile Char.isWhitespace
    if "m²".data.isPrefixOf r || "m2".data.isPrefixOf r then some afterNum.1 else none

/-- `re.search` for the area pattern. -/
def areaScan : List Char → Option (List Char)
  | [] => none
  | c :: rest =>
    match headMatchArea (c :: rest) with
    | some g => some g
    | none => areaScan rest

/-- Python `str(x)` of an optional string, as an f-string renders it. -/
def pyStr (o : Option String) : String := o.getD "None"

/-- Build the listing dictionary for one qualifying Chợ Tốt candidate
(the body of the extraction loop after all `continue` guards). -/
def chototBuild (ed : String → Option String) (i : SearchIntent) (slug : String)
    (resolved : String) (c : Candidate) (price : List Char) : Listing :=
  let inherited : Bool := !slug.isEmpty && truthyS i.district
  let listing_district : Option String :=
    if inherited then i.district else ed c.text
  let address : String :=
    if inherited then pyStr i.district ++ ", " ++ pyStr i.city else "N/A"
  let area : Option PyNum :=
    match areaScan c.text.data with
    | some g => normalize_vietnamese_number ⟨g⟩
    | none => none
  { title := some c.anchor_text
    price_text := some ⟨price⟩
    price_number := (parse_price_to_number ⟨price⟩).map (fun n => ⟨n, 1⟩)
    area_m2 := area
    bedrooms := none
    loc_address := some address
    loc_district := pyOrS listing_district i.district
    loc_city := (pyOrS i.city (some "Hà Nội"))
    contact_phone := some "Liên hệ"
    url := none
    source_url := some resolved
    source_platform := some "chotot" }

/-- Relative-URL resolution: prefix the platform origin when the href
starts with a slash. -/
def chototResolved (c : Candidate) : String :=
  if "/".data.isPrefixOf c.href.data then "https://nha.chotot.com" ++ c.href else c.href

/-- The candidate loop of `_scrape_chotot_direct`: `seen` is the
raw-href seen-set (checked before resolution, extended with the resolved
URL, exactly as the source does), `k` the remaining capacity out of the
cap of 12 (`break` after the 12th append). -/
def chototGo (ed : String → Option String) (i : SearchIntent) (slug : String) :
    List String → Nat → List Candidate → List Listing
  | _, _, [] => []
  | seen, k, c :: cs =>
    if !c.has_link then chototGo ed i slug seen k cs
    else if c.href.isEmpty || seen.contains c.href then chototGo ed i slug seen k cs
    else if !(pyIn ".htm" c.href || pyIn "mua-ban-bat-dong-san" c.href) then
      chototGo ed i slug seen k cs
    else
      match priceScanVN c.text.data with
      | none => chototGo ed i slug seen k cs
      | some price =>
        match k with
        | 0 => [chototBuild ed i slug (chototResolved c) c price]
        | 1 => [chototBuild ed i slug (chototResolved c) c price]
        | k + 2 =>
          chototBuild ed i slug (chototResolved c) c price ::
            chototGo ed i slug (chototResolved c :: seen) (k + 1) cs

/-- The pure extraction phase of `_scrape_chotot_direct` over the
enumerated `<li>` candidates (before the final intent filter). -/
def scrape_chotot_extract (ed : String → Option String) (i : SearchIntent)
    (cands : List Candidate) : List Listing :=
  chototGo ed i (chototDistrictSlug i) [] 12 cands

/-- `_scrape_chotot_direct`'s returned batch: the extracted listings
passed through the intent filter. -/
def scrape_chotot_result (ed : String → Option String) (i : SearchIntent)
    (cands : List Candidate) : List Listing :=
  filter_listings_by_intent (scrape_chotot_extract ed i cands) i

/-! ## Theorems -/

/-- Helper: the regex fallback's transaction intent is always one of the
two enum values. -/
theorem fallback_intent_enum (q : String) :
    (fallback_parse_query q).intent = some "mua" ∨ (fallback_parse_query q).intent = some "thuê" := by
  cases hb : (pyIn "thuê" (pyLower q) || pyIn "cho thuê" (pyLower q)) with
  | false => left; simp [fallback_parse_query, hb]
  | true => right; simp [fallback_parse_query, hb]

/-- Helper: `from_dict` copies the response's `intent` value (with the
`"mua"` default for an absent key) without validation. -/
theorem from_dict_intent (pd : PD) (it : SearchIntent)
    (h : SearchIntent.from_dict pd = some it) : it.intent = pd.intent.getD "mua" := by
  simp only [SearchIntent.from_dict] at h
  split at h
  · cases h
    rfl
  · cases h

/-- C1 (amended): `parse_query` is total by construction and its
transaction intent is `"mua"` or `"thuê"` on every exception, parse
failure and fallback path; the only other possibility is that the
successfully parsed LLM response supplied the intent value itself, which
`from_dict` copies verbatim (defaulting to `"mua"` when the key is
absent) — it is not validated against the two-value enum. -/
theorem parse_query_intent_enum_or_verbatim (q : String) (r : LLMResponse) :
    (parse_query q r).intent = some "mua" ∨ (parse_query q r).intent = some "thuê" ∨
    (∃ pd, r = LLMResponse.returned (some pd) ∧
      (parse_query q r).intent = pd.intent.getD "mua") := by
  cases r with
  | raised =>
    rcases fallback_intent_enum q with h | h
    · exact Or.inl h
    · exact Or.inr (Or.inl h)
  | returned p =>
    cases p with
    | none =>
      rcases fallback_intent_enum q with h | h
      · exact Or.inl h
      · exact Or.inr (Or.inl h)
    | some pd =>
      cases hfd : SearchIntent.from_dict pd with
      | none =>
        have : parse_query q (LLMResponse.returned (some pd)) = fallback_parse_query q := by
          simp [parse_query, hfd]
        rw [this]
        rcases fallback_intent_enum q with h | h
        · exact Or.inl h
        · exact Or.inr (Or.inl h)
      | some it =>
        by_cases hval : (!truthyS it.district && !truthyN it.price_max && !truthyN it.price_min) = true
        · have : parse_query q (LLMResponse.returned (some pd)) = fallback_parse_query q := by
            simp [parse_query, hfd, hval]
          rw [this]
          rcases fallback_intent_enum q with h | h
          · exact Or.inl h
          · exact Or.inr (Or.inl h)
        · have hit : (parse_query q (LLMResponse.returned (some pd))).intent = it.intent := by
            simp only [parse_query, hfd]
            rw [if_neg hval]
            by_cases hbd : (!truthyS it.district) = true
            · rw [if_pos hbd]
              by_cases hfb : truthyS (fallback_parse_query q).district = true
              · rw [if_pos hfb]
              · rw [if_neg hfb]
            · rw [if_neg hbd]
          exact Or.inr (Or.inr ⟨pd, rfl, by rw [hit, from_dict_intent pd it hfd]⟩)

/-- C1 counterexample input: a structurally valid LLM response whose
district passes the validation gate and whose intent value is the
off-enum string `"bán"`. -/
def pdBadIntent : PD :=
  { location := JF.val { district := JF.val "Cầu Giấy" }, intent := JF.val "bán" }

/-- C1 counterexample: `parse_query` returns a `SearchIntent` whose
transaction intent is `"bán"` — neither of the two valid values — so the
claimed enum invariant fails on the code. -/
theorem parse_query_intent_enum_cex :
    (parse_query "" (LLMResponse.returned (some pdBadIntent))).intent = some "bán" ∧
    ¬((parse_query "" (LLMResponse.returned (some pdBadIntent))).intent = some "mua" ∨
      (parse_query "" (LLMResponse.returned (some pdBadIntent))).intent = some "thuê") := by
  decide

/-- C2: the intent filter returns a subsequence of its input, and every
surviving listing falsifies all seven rejection predicates (price above
`price_max*1.1`, price below `price_min*0.9`, city mismatch, district
mismatch, missing district, bedroom mismatch/missing, property-type
keyword mismatch). -/
theorem filter_narrowing_sound (ls : List Listing) (i : SearchIntent) :
    List.Sublist (filter_listings_by_intent ls i) ls ∧
    ∀ l ∈ filter_listings_by_intent ls i,
      rejectPriceMax i l = false ∧ rejectPriceMin i l = false ∧ rejectCity i l = false ∧
      rejectDistrictMismatch i l = false ∧ rejectDistrictMissing i l = false ∧
      rejectBedrooms i l = false ∧ rejectPropertyType i l = false := by
  constructor
  · exact List.filter_sublist ls
  · intro l hl
    have h : keepListing i l = true := List.of_mem_filter hl
    simp only [keepListing, Bool.and_eq_true, Bool.not_eq_true'] at h
    exact ⟨h.1.1.1.1.1.1, h.1.1.1.1.1.2, h.1.1.1.1.2, h.1.1.1.2, h.1.1.2, h.1.2, h.2⟩

/-- Sample inputs for the C2 witness: a default intent and an empty
listing (no rejection rule fires). -/
def sampleIntent : SearchIntent := {}

/-- Sample listing for the C2 witness. -/
def sampleListing : Listing := {}

/-- C2 witness at concrete inputs. -/
theorem filter_narrowing_sound_witness :
    List.Sublist (filter_listings_by_intent [sampleListing] sampleIntent) [sampleListing] ∧
    (rejectPriceMax sampleIntent sampleListing = false ∧
     rejectPriceMin sampleIntent sampleListing = false ∧
     rejectCity sampleIntent sampleListing = false ∧
     rejectDistrictMismatch sampleIntent sampleListing = false ∧
     rejectDistrictMissing sampleIntent sampleListing = false ∧
     rejectBedrooms sampleIntent sampleListing = false ∧
     rejectPropertyType sampleIntent sampleListing = false) :=
  ⟨(filter_narrowing_sound [sampleListing] sampleIntent).1,
   (filter_narrowing_sound [sampleListing] sampleIntent).2 sampleListing (by decide)⟩

/-- C3: when the intent's district is set (truthy), every listing that
survives the filter carries a truthy district — a listing with an absent
or empty district is dropped, never assumed to match. -/
theorem filter_drops_missing_district (i : SearchIntent) (ls : List Listing) (l : Listing)
    (hd : truthyS i.district = true) (hm : l ∈ filter_listings_by_intent ls i) :
    truthyS l.loc_district = true := by
  have h : keepListing i l = true := List.of_mem_filter hm
  simp only [keepListing, Bool.and_eq_true, Bool.not_eq_true'] at h
  have hmiss : rejectDistrictMissing i l = false := h.1.1.2
  unfold rejectDistrictMissing at hmiss
  rw [hd, Bool.true_and] at hmiss
  unfold truthyS
  rw [hmiss]
  rfl

/-- Intent for the C3 witness. -/
def intentWithDistrict : SearchIntent := { district := some "Cầu Giấy" }

/-- Listing for the C3 witness. -/
def listingWithDistrict : Listing := { loc_district := some "Cầu Giấy" }

/-- C3 witness at concrete inputs. -/
theorem filter_drops_missing_district_witness :
    truthyS (Listing.loc_district listingWithDistrict) = true :=
  filter_drops_missing_district intentWithDistrict [listingWithDistrict] listingWithDistrict
    (by decide) (by decide)

/-- C4: evaluation of the normalizer at the three specified inputs.  The
first two agree with the claim, but `normalize("1.200")` evaluates to
`1.2`, not `1200`: the dot-only case never reaches the comma/dot
disambiguation, contradicting the function's own docstring
(`'1.200' -> 1200`). -/
theorem normalize_examples_eval :
    normalize_vietnamese_number "2,5 tỷ" = some 2500000000 ∧
    normalize_vietnamese_number "67,5" = some ⟨135, 2⟩ ∧
    normalize_vietnamese_number "1.200" = some ⟨6, 5⟩ ∧
    (PyNum.mk 6 5 ≠ (1200 : PyNum)) := by
  decide

/-- C5 counterexample: the character-stripping step deletes the minus
sign, so `normalize("-5 triệu")` is `5_000_000`, not `None`. -/
theorem normalize_negative_cex :
    normalize_vietnamese_number "-5 triệu" = some 5000000 ∧
    normalize_vietnamese_number "-5 triệu" ≠ none := by
  decide

/-- C5 (amended): every value the normalizer returns is strictly
positive (`None` on parse failure or a non-positive computed value) —
but a minus sign is stripped before parsing, so a negative input yields
the positive magnitude rather than `None`. -/
theorem normalize_none_or_positive (s : String) (v : PyNum)
    (h : normalize_vietnamese_number s = some v) : v.isPos = true := by
  unfold normalize_vietnamese_number at h
  split at h
  · cases h
  · dsimp only at h
    split at h
    · cases h
    · unfold posGuard at h
      split at h
      · cases h
        assumption
      · cases h

/-- C5 witness: the theorem applied at `"67,5"`. -/
theorem normalize_none_or_positive_witness : PyNum.isPos ⟨135, 2⟩ = true :=
  normalize_none_or_positive "67,5" ⟨135, 2⟩ (by decide)

/-- C6: any price string containing a negotiation keyword (in its
lowercased form) short-circuits `_parse_price_to_number` to `None`,
regardless of any other numeric content. -/
theorem parse_price_negotiation_none (s kw : String)
    (hkw : kw ∈ negotiation_keywords) (hin : pyIn kw (pyLower s) = true) :
    parse_price_to_number s = none := by
  unfold parse_price_to_number
  split
  · rfl
  · rw [if_pos (List.any_eq_true.mpr ⟨kw, hkw, hin⟩)]

/-- C6 witness: `"Thỏa thuận"` (and the keyword check also fires with
numeric content present, e.g. the theorem instance below). -/
theorem parse_price_negotiation_none_witness :
    parse_price_to_number "5 tỷ Thỏa thuận" = none :=
  parse_price_negotiation_none "5 tỷ Thỏa thuận" "thỏa thuận" (by decide) (by decide)

/-- Helper: running the deduplication loop again from the same seen-sets
changes nothing — every kept item's keys were checked against exactly
the keys inserted by the previously kept items. -/
theorem dedupGo_idem (ls : List Listing) (sU sT : List String) :
    dedupGo sU sT (dedupGo sU sT ls) = dedupGo sU sT ls := by
  induction ls generalizing sU sT with
  | nil => rfl
  | cons l t ih =>
    cases h : (keySeen (urlKey l) sU || keySeen (titleKey l) sT) with
    | true =>
      simp only [dedupGo, h, if_true]
      exact ih sU sT
    | false =>
      simp only [dedupGo, h, Bool.false_eq_true, if_false]
      rw [ih (pushKey (urlKey l) sU) (pushKey (titleKey l) sT)]

/-- C7: the deduplicator is idempotent — deduplicating an
already-deduplicated list returns the same list, element for element. -/
theorem dedupe_idempotent (ls : List Listing) :
    deduplicate_listings (deduplicate_listings ls) = deduplicate_listings ls :=
  dedupGo_idem ls [] []

/-- C8: on the query `"chung cư Cầu Giấy dưới 5 tỷ 2 phòng ngủ"` the
regex fallback parser produces property type `"chung cư"`, district
`"Cầu Giấy"`, `price_max = 5_000_000_000`, `bedrooms = 2`, and
transaction intent `"mua"`. -/
theorem fallback_scenario_one :
    (fallback_parse_query "chung cư Cầu Giấy dưới 5 tỷ 2 phòng ngủ").property_type = some "chung cư" ∧
    (fallback_parse_query "chung cư Cầu Giấy dưới 5 tỷ 2 phòng ngủ").district = some "Cầu Giấy" ∧
    (fallback_parse_query "chung cư Cầu Giấy dưới 5 tỷ 2 phòng ngủ").price_max = some 5000000000 ∧
    (fallback_parse_query "chung cư Cầu Giấy dưới 5 tỷ 2 phòng ngủ").bedrooms = some 2 ∧
    (fallback_parse_query "chung cư Cầu Giấy dưới 5 tỷ 2 phòng ngủ").intent = some "mua" := by
  exact ⟨by decide, by decide, by decide, by decide, by decide⟩

/-- C9 counterexample: the query contains the alternate-city keyword
`"sài gòn"`, yet the fallback intent's city is the primary-city default
`"Hà Nội"` — the source force-sets Hanoi and only logs the keyword. -/
theorem fallback_city_cex :
    pyIn "sài gòn" (pyLower "chung cư sài gòn") = true ∧
    (fallback_parse_query "chung cư sài gòn").city = some "Hà Nội" := by
  decide

/-- C9 (amended): the fallback parser sets the intent's city to the
fixed primary city `"Hà Nội"` for every query, alternate-city keywords
included. -/
theorem fallback_city_always_hanoi (q : String) :
    (fallback_parse_query q).city = some "Hà Nội" := rfl

/-- Helper: when the intent's district is truthy, Python's
`listing_district or intent.district` is truthy for any left operand. -/
theorem truthyS_pyOrS (x b : Option String) (hb : truthyS b = true) :
    truthyS (pyOrS x b) = true := by
  unfold pyOrS
  split
  · assumption
  · exact hb

/-- Helper: every listing built by the Chợ Tốt candidate loop carries a
truthy district whenever the intent's district is truthy. -/
theorem chototGo_district_present (ed : String → Option String) (i : SearchIntent)
    (slug : String) (hd : truthyS i.district = true) :
    ∀ (cands : List Candidate) (seen : List String) (k : Nat) (l : Listing),
      l ∈ chototGo ed i slug seen k cands → truthyS l.loc_district = true := by
  intro cands
  induction cands with
  | nil =>
    intro seen k l hm
    cases hm
  | cons c cs ih =>
    intro seen k l hm
    have hbuild : ∀ res price, truthyS (chototBuild ed i slug res c price).loc_district = true := by
      intro res price
      unfold chototBuild
      exact truthyS_pyOrS _ _ hd
    unfold chototGo at hm
    split at hm
    · exact ih seen k l hm
    · split at hm
      · exact ih seen k l hm
      · split at hm
        · exact ih seen k l hm
        · split at hm
          · exact ih seen k l hm
          · match k with
            | 0 =>
              rcases List.mem_singleton.mp hm with rfl
              exact hbuild _ _
            | 1 =>
              rcases List.mem_singleton.mp hm with rfl
              exact hbuild _ _
            | (k + 2) =>
              rcases List.mem_cons.mp hm with rfl | hm2
              · exact hbuild _ _
              · exact ih _ _ l hm2

/-- C10: whenever the intent's district is set (truthy), every listing
extracted by the Chợ Tốt direct scraper has a non-absent district — on a
district-targeted URL it is inherited verbatim from the intent, else the
intent district backfills whatever text extraction returned — so no
Chợ Tốt listing can be rejected by the filter's strict missing-district
rule. -/
theorem chotot_district_never_missing (ed : String → Option String) (i : SearchIntent)
    (cands : List Candidate) (l : Listing) (hd : truthyS i.district = true)
    (hm : l ∈ scrape_chotot_extract ed i cands) :
    truthyS l.loc_district = true ∧ rejectDistrictMissing i l = false := by
  have h := chototGo_district_present ed i (chototDistrictSlug i) hd cands [] 12 l hm
  refine ⟨h, ?_⟩
  unfold rejectDistrictMissing
  unfold truthyS at h
  rw [Bool.not_eq_true'] at h
  rw [h]
  exact Bool.and_false _

/-- Inputs for the C10 witness. -/
def intentC10 : SearchIntent := { district := some "Cầu Giấy" }

/-- Candidate element for the C10 witness. -/
def candC10 : Candidate :=
  { href := "/mua-ban-bat-dong-san/can-ho-abc.htm", anchor_text := "Bán căn hộ Cầu Giấy",
    has_link := true, text := "Bán căn hộ 3,5 tỷ 85m2 Cầu Giấy" }

/-- District extractor stub for the C10 witness (the theorem holds for
every extractor; this one finds nothing). -/
def edNone : String → Option String := fun _ => none

/-- The listing the C10 witness is about. -/
def listingC10 : Listing :=
  chototBuild edNone intentC10 "/quan-cau-giay"
    "https://nha.chotot.com/mua-ban-bat-dong-san/can-ho-abc.htm" candC10 "3,5 tỷ".data

/-- C10 witness at concrete inputs. -/
theorem chotot_district_never_missing_witness :
    truthyS (Listing.loc_district listingC10) = true ∧
    rejectDistrictMissing intentC10 listingC10 = false :=
  chotot_district_never_missing edNone intentC10 [candC10] listingC10 (by decide) (by decide)
